import Mathlib

/- Verification of the Prompter scheduler: a bounded scheduling timeline (the
   queue), a loader that refills it under backpressure, a paced dispatcher,
   an AIMD throttle and a retry/backoff placement algorithm.

   The definitions below are a shallow embedding of the TypeScript source.
   JS numbers holding integer counters become Nat/Int, the throttle floats
   become rationals (their updates only add decimal constants and clamp),
   the jittered backoff computation - the single transcendental expression
   in the program - is modelled over the reals with the random jitter draw
   as an explicit parameter, and the JS array holding the queue becomes a
   list on which an index assignment one slot past the end appends, exactly
   as JS array assignment behaves there. -/

def ONE_MINUTE_MS : ℕ := 60000

def STEP_SIZE_MIN : ℚ := 1
def STEP_SIZE_MAX : ℚ := 32

def STEP_POSITIVE_AMOUNT : ℚ := 1/10
def STEP_NEGATIVE_AMOUNT : ℚ := -(1/2)

def RETRY_COUNT : ℕ := 10
def RETRY_MIN : ℕ := 1
def RETRY_ERRORS : List String := ["408", "429", "503", "529"]

/-- A work item, as in the source `Prompt` type. -/
structure Prompt where
  id : ℕ
  system : String
  user : String
  retries : ℕ
deriving DecidableEq

/-- A page returned by the external store, as in the source `Data` type. -/
structure Data where
  done : Bool
  data : List Prompt
deriving DecidableEq

/-- Errors a send can fail with: a `NetworkError` carrying a message and a
    code, or any other thrown value (modelled by its message only). -/
inductive JsError where
  | network (message code : String)
  | other (message : String)
deriving DecidableEq

/-- Outcome of one `runner.chat` call awaited by `send_prompt`. -/
inductive SendOutcome where
  | ok
  | fail (e : JsError)
deriving DecidableEq

/-- How the catch block of `send_prompt` reacts to a failure. -/
inductive SendFailureAction where
  | retry
  | fatal
deriving DecidableEq

/-- The mutable fields of the `Prompter` class that the scheduling logic
    reads or writes.  Timer handles are not state the logic branches on and
    are left out; `resolved` records what the `start()` promise was resolved
    with, `draining` records that the loader saw a done response and started
    the wait interval. -/
structure PrompterState where
  queue : List (Option Prompt)
  queue_size : ℕ
  queue_count : ℕ
  load_cursor : ℕ
  step_index : ℤ
  step_size_float : ℚ
  step_size_int : ℤ
  chat_active : ℤ
  resolved : Option Bool
  draining : Bool
deriving DecidableEq

/-- The constructor: `queue_size = rpm * 2`, everything zeroed. -/
def initial_state (rpm : ℕ) : PrompterState :=
  { queue := List.replicate (2 * rpm) none
  , queue_size := 2 * rpm
  , queue_count := 0
  , load_cursor := 0
  , step_index := 0
  , step_size_float := 0
  , step_size_int := 0
  , chat_active := 0
  , resolved := none
  , draining := false }

/-- `load_limit = Math.floor(rpm / 4)`. -/
def load_limit (rpm : ℕ) : ℕ := rpm / 4

/-- `load_threshold = Math.ceil(load_limit / 2)`. -/
def load_threshold (rpm : ℕ) : ℕ := (load_limit rpm + 1) / 2

/-- JS array index assignment as the program uses it: an in-bounds index is
    updated, and the one write the program performs at index = length
    (`shift_queue`'s tail write) appends.  The program never writes further
    past the end than that. -/
def listSet (q : List (Option Prompt)) (i : ℕ) (v : Option Prompt) :
    List (Option Prompt) :=
  if i < q.length then q.set i v else q ++ [v]

/-- The JS test `this.queue[i] === null`: true only when index `i` exists
    and holds null; an out-of-bounds read yields undefined, which is not
    identical to null. -/
def isNullAt (q : List (Option Prompt)) (i : ℕ) : Bool :=
  decide (q.get? i = some none)

/-- Number of occupied (non-null) slots of the queue. -/
def occupiedCount (q : List (Option Prompt)) : ℕ :=
  q.countP fun x => x.isSome

/-- The loop body of `push_prompts_to_queue`: walk the queue, drop each
    pending prompt into the next null slot, count the placements, and when
    the last prompt is placed record its id (the new `load_cursor`) and stop.
    Returns (new queue, number placed, cursor update if the last prompt was
    placed). -/
def push_aux : List (Option Prompt) → Prompt → List Prompt →
    List (Option Prompt) × ℕ × Option ℕ
  | [], _, _ => ([], 0, none)
  | some x :: q, p, ps =>
    let r := push_aux q p ps
    (some x :: r.1, r.2.1, r.2.2)
  | none :: q, p, [] => (some p :: q, 1, some p.id)
  | none :: q, p, p2 :: ps =>
    let r := push_aux q p2 ps
    (some p :: r.1, r.2.1 + 1, r.2.2)

/-- `push_prompts_to_queue`.  The store contract (a non-done load response
    carries at least one item) makes the empty-list case unreachable; it is
    modelled as a no-op. -/
def push_prompts_to_queue (prompts : List Prompt) (s : PrompterState) :
    PrompterState :=
  match prompts with
  | [] => s
  | p :: ps =>
    let r := push_aux s.queue p ps
    { s with queue := r.1
           , queue_count := s.queue_count + r.2.1
           , load_cursor := r.2.2.getD s.load_cursor }

/-- The copying loop of `shift_queue`: indices `0 .. size-2` receive the
    value of their right neighbour (each slot is read before it is written,
    so the loop reads only original values); every later index keeps its
    value. -/
def shift_loop (size : ℕ) (q : List (Option Prompt)) : List (Option Prompt) :=
  (List.range q.length).map fun i =>
    if i + 1 < size then q.getD (i + 1) none else q.getD i none

/-- `shift_queue`: the copying loop followed by the tail write
    `this.queue[this.queue_size] = null`, which targets index `size`,
    not `size - 1`. -/
def shift_queue (size : ℕ) (q : List (Option Prompt)) : List (Option Prompt) :=
  listSet (shift_loop size q) size none

/-- `update_step_size`: a positive value is added and clamped above at
    `STEP_SIZE_MAX`, otherwise the value is added and clamped below at
    `STEP_SIZE_MIN`; `step_size_int` becomes `Math.round` of the float. -/
def update_step_size (value : ℚ) (s : PrompterState) : PrompterState :=
  let f := if 0 < value then min (s.step_size_float + value) STEP_SIZE_MAX
           else max (s.step_size_float + value) STEP_SIZE_MIN
  { s with step_size_float := f, step_size_int := round f }

/-- `increment_step_index`, exactly as written in the source: it assigns
    `step_size_int` (not `step_index`), comparing it against `step_index`. -/
def increment_step_index (s : PrompterState) : PrompterState :=
  { s with step_size_int :=
      if s.step_size_int = s.step_index then 0 else s.step_size_int + 1 }

/-- `abort`: clears the timers (not part of the state), signals the abort
    controller and resolves the run promise with false. -/
def abort (s : PrompterState) : PrompterState :=
  { s with resolved := some false }

/-- Upward scan of `find_closest_queue_index`: first null slot in
    `[exact+1, size)`. -/
def scan_up (q : List (Option Prompt)) (size exact : ℕ) : Option ℕ :=
  (List.range' (exact + 1) (size - (exact + 1))).find? fun i => isNullAt q i

/-- Downward scan of `find_closest_queue_index`: first null slot among
    `exact-1, exact-2, ..., 1` (the loop condition `lower_index > 0`
    stops before index 0). -/
def scan_down (q : List (Option Prompt)) (exact : ℕ) : Option ℕ :=
  ((List.range' 1 (exact - 1)).reverse).find? fun i => isNullAt q i

/-- The search part of `find_closest_queue_index`, applied to the already
    computed `exact_index`: take it if null, else scan up, else scan down,
    else none. -/
def find_closest_core (size : ℕ) (q : List (Option Prompt)) (exact : ℕ) :
    Option ℕ :=
  if isNullAt q exact then some exact
  else
    match scan_up q size exact with
    | some i => some i
    | none => scan_down q exact

/-- `RETRY_MULTIPLIER = 1.85`, the backoff exponent. -/
noncomputable def RETRY_MULTIPLIER : ℝ := 1.85

/-- The backoff delay `Math.floor((retries + RETRY_MIN) ** 1.85 * jitter)`;
    the jitter `0.75 + Math.random() * 0.25` is passed in explicitly. -/
noncomputable def backoff_delay (retries : ℕ) (jitter : ℝ) : ℤ :=
  Int.floor ((((retries : ℝ) + (RETRY_MIN : ℝ)) ^ RETRY_MULTIPLIER) * jitter)

/-- The `exact_index` of `find_closest_queue_index`: the backoff delay
    clamped with `Math.min(..., this.queue_size)` - the clamp bound is
    `queue_size` itself, not `queue_size - 1`. -/
noncomputable def backoff_index (size retries : ℕ) (jitter : ℝ) : ℤ :=
  min (backoff_delay retries jitter) (size : ℤ)

/-- The whole `find_closest_queue_index`: jittered backoff target, then the
    nearest-free search.  For any jitter ≥ 0 the index is a nonnegative
    integer, so `Int.toNat` is exact. -/
noncomputable def find_closest_queue_index (size : ℕ)
    (q : List (Option Prompt)) (retries : ℕ) (jitter : ℝ) : Option ℕ :=
  find_closest_core size q (backoff_index size retries jitter).toNat

/-- `schedule_prompt`, with the random draw's pre-clamp floor passed in as
    `delay`: under the retry ceiling, search for a slot; on failure log and
    drop; on success store the prompt (whose `retries` field the following
    `prompt.retries += 1` increments on the shared object, so the stored
    item carries `retries + 1`).  At or above the ceiling, log and drop.
    `queue_count` is not touched on any path, as in the source. -/
def schedule_prompt (p : Prompt) (delay : ℕ) (s : PrompterState) :
    PrompterState :=
  if p.retries < RETRY_COUNT then
    match find_closest_core s.queue_size s.queue (min delay s.queue_size) with
    | none => s
    | some i =>
      { s with queue := listSet s.queue i (some { p with retries := p.retries + 1 }) }
  else s

/-- `should_retry`: the error code is one of `RETRY_ERRORS`, or the message
    contains the substring "tokens". -/
def should_retry (message code : String) : Bool :=
  RETRY_ERRORS.contains code ||
    decide (List.IsInfix ("tokens".data) (message.data))

/-- The failure branch of `send_prompt`'s catch block: a `NetworkError`
    passing `should_retry` is retried, everything else aborts the run. -/
def classify_failure : JsError → SendFailureAction
  | .network m c => if should_retry m c then .retry else .fatal
  | .other _ => .fatal

/-- Entry of `send_prompt`: `this.chat_active += 1`. -/
def send_start (s : PrompterState) : PrompterState :=
  { s with chat_active := s.chat_active + 1 }

/-- The rest of `send_prompt` once the awaited `runner.chat` call has
    settled: success bumps the step size; a retryable failure lowers the
    step size and reschedules the prompt; any other failure aborts.  On
    every path the final `this.chat_active -= 1` runs. -/
def send_finish (p : Prompt) (o : SendOutcome) (delay : ℕ)
    (s : PrompterState) : PrompterState :=
  let s2 :=
    match o with
    | .ok => update_step_size STEP_POSITIVE_AMOUNT s
    | .fail e =>
      match e with
      | .network m c =>
        if should_retry m c then
          schedule_prompt p delay (update_step_size STEP_NEGATIVE_AMOUNT s)
        else abort s
      | .other _ => abort s
  { s2 with chat_active := s2.chat_active - 1 }

/-- One firing of the wait interval: resolve the promise with true once
    `chat_active` is 0, otherwise do nothing. -/
def wait_tick (s : PrompterState) : PrompterState :=
  if s.chat_active = 0 then { s with resolved := some true } else s

/-- One firing of the load interval, with the store's response passed in:
    backpressure check first, then either the done transition or the
    placement of the loaded page. -/
def load_tick (threshold : ℕ) (resp : Data) (s : PrompterState) :
    PrompterState :=
  if threshold ≤ s.queue_count then s
  else if resp.done then { s with draining := true }
  else push_prompts_to_queue resp.data s

/-- The `shift_queue` call as a state update. -/
def shift_queue_op (s : PrompterState) : PrompterState :=
  { s with queue := shift_queue s.queue_size s.queue }

/-- The synchronous tail of one chat-interval firing (the dispatch itself is
    modelled by the send events): under `queue_count > 0`, run
    `increment_step_index` and then `shift_queue`. -/
def chat_tick (s : PrompterState) : PrompterState :=
  if 0 < s.queue_count then shift_queue_op (increment_step_index s) else s

/-- Whether one chat-interval firing initiates a send:
    `queue_count > 0`, then `step_index === 0 && queue[0] !== null`. -/
def chat_tick_sends (s : PrompterState) : Bool :=
  decide (0 < s.queue_count) &&
    (decide (s.step_index = 0) && !decide (s.queue.get? 0 = some none))

/-- The atomic state transitions of a run.  The send is split into its
    start and its completion so that event lists cover every interleaving
    the timers can produce (sends overlap later ticks by design). -/
inductive Event where
  | load (resp : Data)
  | chat
  | sendStart
  | sendFinish (p : Prompt) (o : SendOutcome) (delay : ℕ)
  | wait

/-- Apply one event. -/
def step (threshold : ℕ) (s : PrompterState) : Event → PrompterState
  | .load r => load_tick threshold r s
  | .chat => chat_tick s
  | .sendStart => send_start s
  | .sendFinish p o d => send_finish p o d s
  | .wait => wait_tick s

/-- Apply a list of events in order. -/
def runEvents (threshold : ℕ) (es : List Event) (s : PrompterState) :
    PrompterState :=
  es.foldl (step threshold) s

/-- Concrete prompts for the concrete-input theorems. -/
def p0 : Prompt := { id := 0, system := "", user := "", retries := 0 }

def p1 : Prompt := { id := 1, system := "", user := "", retries := 0 }

def p2 : Prompt := { id := 2, system := "", user := "", retries := 2 }

def d0 : Data := { done := false, data := [p1] }

def c1s : PrompterState :=
  { initial_state 1 with queue := [some p0, none], queue_count := 1 }

def c5s : PrompterState :=
  { initial_state 2 with step_size_float := 2 }

def c7s : PrompterState :=
  { initial_state 2 with queue := [some p0, some p1, none, none], queue_count := 2 }

def c8s : PrompterState :=
  { initial_state 2 with queue := [some p0, some p1, none, none]
                       , queue_count := 2
                       , step_size_float := 2
                       , step_size_int := 2 }

def c10s : PrompterState :=
  { initial_state 2 with queue := [some p0, none, none, none], queue_count := 1 }

/- Projection helpers: which fields each operation leaves untouched. -/

lemma update_step_size_queue_count (v : ℚ) (s : PrompterState) :
    (update_step_size v s).queue_count = s.queue_count := rfl

lemma update_step_size_chat_active (v : ℚ) (s : PrompterState) :
    (update_step_size v s).chat_active = s.chat_active := rfl

lemma update_step_size_step_index (v : ℚ) (s : PrompterState) :
    (update_step_size v s).step_index = s.step_index := rfl

lemma schedule_prompt_queue_count (p : Prompt) (d : ℕ) (s : PrompterState) :
    (schedule_prompt p d s).queue_count = s.queue_count := by
  unfold schedule_prompt
  split
  · split <;> rfl
  · rfl

lemma schedule_prompt_chat_active (p : Prompt) (d : ℕ) (s : PrompterState) :
    (schedule_prompt p d s).chat_active = s.chat_active := by
  unfold schedule_prompt
  split
  · split <;> rfl
  · rfl

lemma schedule_prompt_step_index (p : Prompt) (d : ℕ) (s : PrompterState) :
    (schedule_prompt p d s).step_index = s.step_index := by
  unfold schedule_prompt
  split
  · split <;> rfl
  · rfl

lemma send_finish_queue_count (p : Prompt) (o : SendOutcome) (d : ℕ)
    (s : PrompterState) :
    (send_finish p o d s).queue_count = s.queue_count := by
  unfold send_finish
  cases o with
  | ok => rfl
  | fail e =>
    cases e with
    | network m c =>
      by_cases hr : should_retry m c = true
      · simp [hr, schedule_prompt_queue_count, update_step_size_queue_count]
      · simp only [Bool.not_eq_true] at hr
        simp [hr, abort]
    | other m => rfl

lemma send_finish_step_index (p : Prompt) (o : SendOutcome) (d : ℕ)
    (s : PrompterState) :
    (send_finish p o d s).step_index = s.step_index := by
  unfold send_finish
  cases o with
  | ok => rfl
  | fail e =>
    cases e with
    | network m c =>
      by_cases hr : should_retry m c = true
      · simp [hr, schedule_prompt_step_index, update_step_size_step_index]
      · simp only [Bool.not_eq_true] at hr
        simp [hr, abort]
    | other m => rfl

lemma push_queue_count_le (ps : List Prompt) (s : PrompterState) :
    s.queue_count ≤ (push_prompts_to_queue ps s).queue_count := by
  cases ps with
  | nil => exact le_refl _
  | cons p tl => exact Nat.le_add_right _ _

lemma push_step_index (ps : List Prompt) (s : PrompterState) :
    (push_prompts_to_queue ps s).step_index = s.step_index := by
  cases ps with
  | nil => rfl
  | cons p tl => rfl

lemma chat_tick_queue_count (s : PrompterState) :
    (chat_tick s).queue_count = s.queue_count := by
  unfold chat_tick shift_queue_op increment_step_index
  split <;> rfl

lemma chat_tick_step_index (s : PrompterState) :
    (chat_tick s).step_index = s.step_index := by
  unfold chat_tick shift_queue_op increment_step_index
  split <;> rfl

lemma wait_tick_queue_count (s : PrompterState) :
    (wait_tick s).queue_count = s.queue_count := by
  unfold wait_tick
  split <;> rfl

lemma wait_tick_step_index (s : PrompterState) :
    (wait_tick s).step_index = s.step_index := by
  unfold wait_tick
  split <;> rfl

lemma load_tick_queue_count_le (t : ℕ) (r : Data) (s : PrompterState) :
    s.queue_count ≤ (load_tick t r s).queue_count := by
  unfold load_tick
  split
  · exact le_refl _
  · split
    · exact le_refl _
    · exact push_queue_count_le _ _

lemma load_tick_step_index (t : ℕ) (r : Data) (s : PrompterState) :
    (load_tick t r s).step_index = s.step_index := by
  unfold load_tick
  split
  · rfl
  · split
    · rfl
    · exact push_step_index _ _

lemma step_queue_count_le (t : ℕ) (s : PrompterState) (e : Event) :
    s.queue_count ≤ (step t s e).queue_count := by
  cases e with
  | load r => exact load_tick_queue_count_le t r s
  | chat => exact le_of_eq (chat_tick_queue_count s).symm
  | sendStart => exact le_refl _
  | sendFinish p o d => exact le_of_eq (send_finish_queue_count p o d s).symm
  | wait => exact le_of_eq (wait_tick_queue_count s).symm

lemma runEvents_queue_count_le (t : ℕ) (es : List Event) (s : PrompterState) :
    s.queue_count ≤ (runEvents t es s).queue_count := by
  induction es generalizing s with
  | nil => exact le_refl _
  | cons e tl ih => exact le_trans (step_queue_count_le t s e) (ih _)

/-- Claim C1 (code bug): the spec requires `queue_count` to equal the number
    of occupied slots after every mutation, but the code never decrements
    it.  On the concrete state with capacity 2, slot 0 occupied by `p0` and
    `queue_count = 1`, a full dispatch tick (send of slot 0 succeeds, then
    the timeline advances) leaves `queue_count = 1` while no slot is
    occupied any more. -/
theorem queue_count_desync_after_dispatch_tick :
    (runEvents 1 [Event.sendStart, Event.sendFinish p0 SendOutcome.ok 0,
        Event.chat] c1s).queue_count = 1 ∧
    occupiedCount (runEvents 1 [Event.sendStart,
        Event.sendFinish p0 SendOutcome.ok 0, Event.chat] c1s).queue = 0 := by
  decide

/-- Claim C2 (code bug): `shift_queue` on a full capacity-2 timeline.  The
    result has length 3 (the tail write `queue[queue_size] = null` lands one
    index past `capacity - 1`), and the final in-bounds slot (index 1) still
    holds its old item instead of being set empty. -/
theorem shift_queue_writes_past_capacity :
    shift_queue 2 [some p0, some p1] = [some p1, some p1, none] ∧
    (shift_queue 2 [some p0, some p1]).length = 3 ∧
    (shift_queue 2 [some p0, some p1]).getD 1 none = some p1 := by
  decide

/-- Claim C6 (confirmed): a failed send is retried exactly when it is a
    `NetworkError` whose code is one of 408, 429, 503, 529 or whose message
    contains "tokens"; every other error - including any non-network error -
    is fatal, and `send_prompt` then runs `abort` instead of rescheduling. -/
theorem classify_failure_iff :
    (∀ em ec, classify_failure (JsError.network em ec) = SendFailureAction.retry ↔
        (ec ∈ RETRY_ERRORS ∨ List.IsInfix ("tokens".data) (em.data))) ∧
    (∀ em, classify_failure (JsError.other em) = SendFailureAction.fatal) ∧
    (∀ p d s e, send_finish p (SendOutcome.fail e) d s =
        (match classify_failure e with
         | SendFailureAction.retry =>
             let s2 := schedule_prompt p d (update_step_size STEP_NEGATIVE_AMOUNT s)
             { s2 with chat_active := s2.chat_active - 1 }
         | SendFailureAction.fatal =>
             let s2 := abort s
             { s2 with chat_active := s2.chat_active - 1 })) := by
  have hsr : ∀ m c, should_retry m c = true ↔
      (c ∈ RETRY_ERRORS ∨ List.IsInfix ("tokens".data) (m.data)) := by
    intro m c
    simp [should_retry]
  refine ⟨fun em ec => ?_, fun em => rfl, fun p d s e => ?_⟩
  · by_cases hr : should_retry em ec = true
    · constructor
      · intro _
        exact (hsr em ec).mp hr
      · intro _
        simp [classify_failure, hr]
    · constructor
      · intro h
        exact absurd h (by simp [classify_failure, hr])
      · intro hc
        exact absurd ((hsr em ec).mpr hc) hr
  · cases e with
    | network m c =>
      by_cases hr : should_retry m c = true
      · simp [send_finish, classify_failure, hr]
      · simp only [Bool.not_eq_true] at hr
        simp [send_finish, classify_failure, hr]
    | other m => rfl

/-- Claim C7 (confirmed): `schedule_prompt` under the retry ceiling places
    the item (with its retries counter incremented) at the slot the search
    returns and drops it when the search fails; an item whose retries
    already reached `RETRY_COUNT` is never re-placed. -/
theorem schedule_prompt_spec (s : PrompterState) (p : Prompt) (d : ℕ) :
    (p.retries < RETRY_COUNT →
      (find_closest_core s.queue_size s.queue (min d s.queue_size) = none →
          schedule_prompt p d s = s) ∧
      (∀ i, find_closest_core s.queue_size s.queue (min d s.queue_size) = some i →
          schedule_prompt p d s =
            { s with
              queue := listSet s.queue i (some { p with retries := p.retries + 1 }) })) ∧
    (RETRY_COUNT ≤ p.retries → schedule_prompt p d s = s) := by
  constructor
  · intro hlt
    constructor
    · intro hn
      simp [schedule_prompt, hlt, hn]
    · intro i hi
      simp [schedule_prompt, hlt, hi]
  · intro hge
    simp [schedule_prompt, Nat.not_lt.mpr hge]

/-- Claim C7 witness: on the concrete capacity-4 state with slots 0 and 1
    occupied, rescheduling `p2` (two prior retries) with pre-clamp delay 1
    stores it, with retries bumped to 3, at slot 2 - the first free slot the
    upward scan finds. -/
theorem schedule_prompt_spec_witness :
    schedule_prompt p2 1 c7s =
      { c7s with
        queue := listSet c7s.queue 2 (some { p2 with retries := p2.retries + 1 }) } :=
  ((schedule_prompt_spec c7s p2 1).1 (by decide)).2 2 (by decide)

/-- Claim C8 (code bug): the throttle's skip cadence never engages.  The
    field `step_index` that gates sends is never written by any operation
    (`increment_step_index` mutates `step_size_int` instead), so on the
    concrete state whose skip count `step_size_int` is 2 with slots 0 and 1
    occupied, two consecutive dispatcher ticks both initiate sends, instead
    of 1 send in every 2 ticks. -/
theorem dispatcher_skip_cadence_broken :
    c8s.step_size_int = 2 ∧
    chat_tick_sends c8s = true ∧
    chat_tick_sends (runEvents 1 [Event.sendStart,
        Event.sendFinish p0 SendOutcome.ok 0, Event.chat] c8s) = true ∧
    ∀ (t : ℕ) (s : PrompterState) (e : Event),
      (step t s e).step_index = s.step_index := by
  refine ⟨by decide, by decide, by decide, fun t s e => ?_⟩
  cases e with
  | load r => exact load_tick_step_index t r s
  | chat => exact chat_tick_step_index s
  | sendStart => rfl
  | sendFinish p o d => exact send_finish_step_index p o d s
  | wait => exact wait_tick_step_index s

/-- Claim C9 (confirmed): `send_prompt` increments `chat_active` exactly
    once on entry and decrements it exactly once after the try/catch, on
    the success path and on every failure path alike; and a wait-interval
    tick resolves the run promise with true exactly when `chat_active` is
    0. -/
theorem chat_active_balanced (s : PrompterState) (p : Prompt)
    (o : SendOutcome) (d : ℕ) :
    (send_start s).chat_active = s.chat_active + 1 ∧
    (send_finish p o d s).chat_active = s.chat_active - 1 ∧
    (s.resolved = none →
      ((wait_tick s).resolved = some true ↔ s.chat_active = 0)) := by
  refine ⟨rfl, ?_, ?_⟩
  · unfold send_finish
    cases o with
    | ok => rfl
    | fail e =>
      cases e with
      | network m c =>
        by_cases hr : should_retry m c = true
        · simp [hr, schedule_prompt_chat_active, update_step_size_chat_active]
        · simp only [Bool.not_eq_true] at hr
          simp [hr, abort]
      | other m => rfl
  · intro hres
    unfold wait_tick
    by_cases hz : s.chat_active = 0
    · simp [hz]
    · simp [hz, hres]

/-- Claim C9 witness: on the freshly constructed state (no send in flight,
    promise unresolved) the wait tick resolves with true exactly because the
    in-flight counter is 0. -/
theorem chat_active_balanced_witness :
    (wait_tick (initial_state 4)).resolved = some true ↔
      (initial_state 4).chat_active = 0 :=
  (chat_active_balanced (initial_state 4) p0 SendOutcome.ok 0).2.2 rfl

/-- Claim C10 (confirmed): `queue_count` never decreases under any sequence
    of loader ticks, dispatcher ticks, send starts/completions (including
    retry re-placement) and wait ticks; every event other than a load leaves
    it exactly unchanged; and once it has reached the load threshold, every
    subsequent load tick is suppressed by the backpressure check and leaves
    the state untouched. -/
theorem queue_count_monotone_and_load_suppressed (t : ℕ) (s : PrompterState)
    (es : List Event) (r : Data) :
    s.queue_count ≤ (runEvents t es s).queue_count ∧
    (chat_tick s).queue_count = s.queue_count ∧
    (send_start s).queue_count = s.queue_count ∧
    (∀ p o d, (send_finish p o d s).queue_count = s.queue_count) ∧
    (wait_tick s).queue_count = s.queue_count ∧
    (t ≤ s.queue_count →
      step t (runEvents t es s) (Event.load r) = runEvents t es s) := by
  refine ⟨runEvents_queue_count_le t es s, chat_tick_queue_count s, rfl,
    fun p o d => send_finish_queue_count p o d s, wait_tick_queue_count s,
    fun h => ?_⟩
  have h2 : t ≤ (runEvents t es s).queue_count :=
    le_trans h (runEvents_queue_count_le t es s)
  simp [step, load_tick, h2]

/-- Claim C10 witness: starting from the concrete state holding one item
    with threshold 1 (already reached), after a dispatcher tick a further
    load tick is a no-op. -/
theorem queue_count_monotone_witness :
    step 1 (runEvents 1 [Event.chat] c10s) (Event.load d0) =
      runEvents 1 [Event.chat] c10s :=
  (queue_count_monotone_and_load_suppressed 1 c10s [Event.chat] d0).2.2.2.2.2
    (by decide)

/- The throttle feedback loop: each send outcome applies `update_step_size`
   with the corresponding amount. -/

def feedback_amount (o : Bool) : ℚ :=
  if o then STEP_POSITIVE_AMOUNT else STEP_NEGATIVE_AMOUNT

/-- A sequence of send outcomes (true = success, false = retryable failure)
    folded through the throttle update. -/
def run_feedback (s : PrompterState) (os : List Bool) : PrompterState :=
  os.foldl (fun s2 o => update_step_size (feedback_amount o) s2) s

lemma run_feedback_cons (s : PrompterState) (o : Bool) (tl : List Bool) :
    run_feedback s (o :: tl) =
      run_feedback (update_step_size (feedback_amount o) s) tl := rfl

lemma update_step_size_float (v : ℚ) (s : PrompterState) :
    (update_step_size v s).step_size_float =
      if 0 < v then min (s.step_size_float + v) STEP_SIZE_MAX
      else max (s.step_size_float + v) STEP_SIZE_MIN := rfl

lemma update_step_size_int_eq (v : ℚ) (s : PrompterState) :
    (update_step_size v s).step_size_int =
      round (update_step_size v s).step_size_float := rfl

lemma update_pos_float (s : PrompterState) :
    (update_step_size STEP_POSITIVE_AMOUNT s).step_size_float =
      min (s.step_size_float + STEP_POSITIVE_AMOUNT) STEP_SIZE_MAX := by
  rw [update_step_size_float, if_pos (by norm_num [STEP_POSITIVE_AMOUNT])]

lemma update_neg_float (s : PrompterState) :
    (update_step_size STEP_NEGATIVE_AMOUNT s).step_size_float =
      max (s.step_size_float + STEP_NEGATIVE_AMOUNT) STEP_SIZE_MIN := by
  rw [update_step_size_float, if_neg (by norm_num [STEP_NEGATIVE_AMOUNT])]

lemma update_pos_bounds (s : PrompterState) (h0 : 0 ≤ s.step_size_float)
    (_h32 : s.step_size_float ≤ STEP_SIZE_MAX) :
    0 ≤ (update_step_size STEP_POSITIVE_AMOUNT s).step_size_float ∧
      (update_step_size STEP_POSITIVE_AMOUNT s).step_size_float ≤
        STEP_SIZE_MAX := by
  rw [update_pos_float]
  constructor
  · refine le_min ?_ ?_
    · have h : (0:ℚ) ≤ STEP_POSITIVE_AMOUNT := by norm_num [STEP_POSITIVE_AMOUNT]
      linarith
    · norm_num [STEP_SIZE_MAX]
  · exact min_le_right _ _

lemma update_pos_min (s : PrompterState)
    (h1 : STEP_SIZE_MIN ≤ s.step_size_float) :
    STEP_SIZE_MIN ≤ (update_step_size STEP_POSITIVE_AMOUNT s).step_size_float := by
  rw [update_pos_float]
  refine le_min ?_ ?_
  · have h : (0:ℚ) ≤ STEP_POSITIVE_AMOUNT := by norm_num [STEP_POSITIVE_AMOUNT]
    linarith
  · norm_num [STEP_SIZE_MIN, STEP_SIZE_MAX]

lemma update_neg_bounds (s : PrompterState)
    (h32 : s.step_size_float ≤ STEP_SIZE_MAX) :
    0 ≤ (update_step_size STEP_NEGATIVE_AMOUNT s).step_size_float ∧
      (update_step_size STEP_NEGATIVE_AMOUNT s).step_size_float ≤
        STEP_SIZE_MAX := by
  rw [update_neg_float]
  constructor
  · have h : (0:ℚ) ≤ STEP_SIZE_MIN := by norm_num [STEP_SIZE_MIN]
    exact le_trans h (le_max_right _ _)
  · refine max_le ?_ ?_
    · have h : STEP_NEGATIVE_AMOUNT ≤ 0 := by norm_num [STEP_NEGATIVE_AMOUNT]
      linarith
    · norm_num [STEP_SIZE_MIN, STEP_SIZE_MAX]

lemma update_neg_min (s : PrompterState) :
    STEP_SIZE_MIN ≤ (update_step_size STEP_NEGATIVE_AMOUNT s).step_size_float := by
  rw [update_neg_float]
  exact le_max_right _ _

/-- Claim C5 counterexample: the throttle step does not start at the
    configured minimum and does not stay within `[1, 32]`: the constructor
    sets it to 0, and after a single send success it is 1/10, still below
    `STEP_SIZE_MIN`. -/
theorem step_size_starts_below_min :
    (initial_state 60).step_size_float = 0 ∧
    (update_step_size STEP_POSITIVE_AMOUNT (initial_state 60)).step_size_float
      = 1/10 ∧
    ¬ STEP_SIZE_MIN ≤
      (update_step_size STEP_POSITIVE_AMOUNT (initial_state 60)).step_size_float := by
  refine ⟨rfl, ?_, ?_⟩ <;>
    norm_num [update_step_size, initial_state, STEP_POSITIVE_AMOUNT,
      STEP_SIZE_MAX, STEP_SIZE_MIN, min_def]

/-- Claim C5 (amended): the step starts at 0 (not at a configured minimum);
    each success adds 0.1 clamped above at 32, each retryable failure
    subtracts 0.5 clamped below at 1; under any feedback sequence the step
    stays within `[0, 32]`, it stays within `[1, 32]` once it is at least
    `STEP_SIZE_MIN` (in particular after any failure), and after at least
    one update `step_size_int` (the skip count) is the rounding of the
    step. -/
theorem step_size_bounds (s : PrompterState) (os : List Bool)
    (h0 : 0 ≤ s.step_size_float) (h32 : s.step_size_float ≤ STEP_SIZE_MAX) :
    (0 ≤ (run_feedback s os).step_size_float ∧
      (run_feedback s os).step_size_float ≤ STEP_SIZE_MAX) ∧
    (STEP_SIZE_MIN ≤ s.step_size_float →
      STEP_SIZE_MIN ≤ (run_feedback s os).step_size_float) ∧
    (os ≠ [] → (run_feedback s os).step_size_int =
      round (run_feedback s os).step_size_float) := by
  induction os generalizing s with
  | nil =>
    exact ⟨⟨h0, h32⟩, fun h1 => h1, fun h => absurd rfl h⟩
  | cons o tl ih =>
    simp only [run_feedback_cons]
    cases o with
    | true =>
      simp only [feedback_amount, if_true]
      have hb := update_pos_bounds s h0 h32
      have ihr := ih _ hb.1 hb.2
      refine ⟨ihr.1, fun h1 => ihr.2.1 (update_pos_min s h1), fun _ => ?_⟩
      cases tl with
      | nil => exact update_step_size_int_eq _ _
      | cons o2 tl2 => exact ihr.2.2 (by simp)
    | false =>
      simp only [feedback_amount, if_false]
      have hb := update_neg_bounds s h32
      have ihr := ih _ hb.1 hb.2
      refine ⟨ihr.1, fun _ => ihr.2.1 (update_neg_min s), fun _ => ?_⟩
      cases tl with
      | nil => exact update_step_size_int_eq _ _
      | cons o2 tl2 => exact ihr.2.2 (by simp)

/-- Claim C5 witness: from the concrete state whose step is 2, one
    retryable failure leaves the step at or above `STEP_SIZE_MIN`. -/
theorem step_size_bounds_witness :
    STEP_SIZE_MIN ≤ (run_feedback c5s [false]).step_size_float :=
  (step_size_bounds c5s [false] (by norm_num [c5s, initial_state])
    (by norm_num [c5s, initial_state, STEP_SIZE_MAX])).2.1
    (by norm_num [c5s, initial_state, STEP_SIZE_MIN])

/-- Claim C3 counterexample: with capacity 2, one prior retry and the
    jitter at 1.0, the code's backoff target is
    `min(floor(2 ** 1.85), queue_size) = 2` - equal to the capacity, one
    past the last slot, hence not the `min(delay, capacity - 1)` of the
    claim and larger than `capacity - 1`. -/
theorem backoff_index_reaches_capacity :
    backoff_index 2 1 (1 : ℝ) = 2 ∧
    ¬ backoff_index 2 1 (1 : ℝ) ≤ (2 : ℤ) - 1 := by
  have hbase : ((1:ℕ):ℝ) + (RETRY_MIN:ℝ) = 2 := by norm_num [RETRY_MIN]
  have h2 : (2:ℝ) ≤ (2:ℝ) ^ RETRY_MULTIPLIER := by
    have h := Real.rpow_le_rpow_of_exponent_le (by norm_num : (1:ℝ) ≤ 2)
      (by norm_num [RETRY_MULTIPLIER] : (1:ℝ) ≤ RETRY_MULTIPLIER)
    simpa [Real.rpow_one] using h
  have h3 : (2:ℤ) ≤ backoff_delay 1 1 := by
    unfold backoff_delay
    rw [hbase, mul_one]
    exact Int.le_floor.mpr (by push_cast; exact h2)
  have h4 : backoff_index 2 1 (1 : ℝ) = 2 := by
    unfold backoff_index
    omega
  refine ⟨h4, ?_⟩
  rw [h4]
  decide

/-- Claim C3 (amended): the code clamps the backoff target with
    `Math.min(delay, queue_size)` - against the capacity itself, not
    `capacity - 1` - so for any fixed nonnegative jitter the target index
    is non-decreasing in the retry count and never exceeds the capacity
    (which it can reach, one slot past the end). -/
theorem backoff_index_monotone_and_le_capacity (size r1 r2 : ℕ) (j : ℝ)
    (hr : r1 ≤ r2) (hj : 0 ≤ j) :
    backoff_index size r1 j ≤ backoff_index size r2 j ∧
    backoff_index size r2 j ≤ (size : ℤ) := by
  constructor
  · unfold backoff_index
    refine min_le_min ?_ le_rfl
    unfold backoff_delay
    refine Int.floor_le_floor ?_
    refine mul_le_mul_of_nonneg_right ?_ hj
    refine Real.rpow_le_rpow (by positivity) ?_
      (by norm_num [RETRY_MULTIPLIER])
    have hc : (r1:ℝ) ≤ (r2:ℝ) := Nat.cast_le.mpr hr
    linarith
  · exact min_le_right _ _

/-- Claim C3 witness: with capacity 8 and jitter 1.0 the backoff index at
    one retry is at most the one at two retries, and the latter is at most
    the capacity. -/
theorem backoff_index_monotone_witness :
    backoff_index 8 1 (1 : ℝ) ≤ backoff_index 8 2 (1 : ℝ) ∧
    backoff_index 8 2 (1 : ℝ) ≤ ((8:ℕ) : ℤ) :=
  backoff_index_monotone_and_le_capacity 8 1 2 1 (by norm_num) (by norm_num)

/-- Claim C4 counterexample: with capacity 2, slot 0 free, slot 1 occupied,
    no retries yet and the jitter at 1.0, the search targets slot 1 and
    returns none - the timeline is not completely full (slot 0 is free),
    but the downward scan stops before index 0. -/
theorem find_closest_misses_slot_zero :
    find_closest_queue_index 2 [none, some p0] 0 (1 : ℝ) = none ∧
    isNullAt [none, some p0] 0 = true := by
  have hb : backoff_index 2 0 (1 : ℝ) = 1 := by
    unfold backoff_index backoff_delay
    norm_num [RETRY_MIN, Real.one_rpow]
  constructor
  · unfold find_closest_queue_index
    rw [hb]
    decide
  · decide

/-- Claim C4 (amended): for a timeline of exactly `capacity` slots and a
    positive pre-clamp delay, the search takes the clamped target if that
    slot is free; it returns none exactly when every slot of `[1, capacity)`
    is occupied - slot 0 is reachable only as the clamped target itself,
    never by the downward scan, so a free slot 0 does not prevent a none
    result; and whenever the target slot is occupied but a free slot exists
    above it, the result comes from the upward scan, which always precedes
    the downward scan. -/
theorem find_closest_core_characterization (size delay : ℕ)
    (q : List (Option Prompt)) (hq : q.length = size) (hs : 1 ≤ size)
    (hd : 1 ≤ delay) :
    (isNullAt q (min delay size) = true →
      find_closest_core size q (min delay size) = some (min delay size)) ∧
    (find_closest_core size q (min delay size) = none ↔
      ∀ i, 1 ≤ i → i < size → isNullAt q i = false) ∧
    (isNullAt q (min delay size) = false →
      ∀ j, min delay size < j → j < size → isNullAt q j = true →
        ∃ k, min delay size < k ∧ k < size ∧
          find_closest_core size q (min delay size) = some k) := by
  have he1 : 1 ≤ min delay size := le_min hd hs
  have he2 : min delay size ≤ size := min_le_right _ _
  set e := min delay size with hedef
  refine ⟨fun h => ?_, ⟨fun h => ?_, fun h => ?_⟩, fun hne j hj1 hj2 hj3 => ?_⟩
  · unfold find_closest_core
    rw [if_pos h]
  · intro i hi1 hi2
    by_cases hne : isNullAt q e = true
    · unfold find_closest_core at h
      rw [if_pos hne] at h
      simp at h
    · have hne2 : isNullAt q e = false := by simpa using hne
      unfold find_closest_core at h
      rw [if_neg hne] at h
      cases hup : scan_up q size e with
      | some v =>
        rw [hup] at h
        simp at h
      | none =>
        rw [hup] at h
        unfold scan_up at hup
        unfold scan_down at h
        rcases Nat.lt_trichotomy i e with hlt | heq | hgt
        · have hmem : i ∈ (List.range' 1 (e - 1)).reverse :=
            List.mem_reverse.mpr (List.mem_range'_1.mpr ⟨hi1, by omega⟩)
          have hni := List.find?_eq_none.mp h i hmem
          simpa using hni
        · rw [heq]
          exact hne2
        · have hmem : i ∈ List.range' (e + 1) (size - (e + 1)) :=
            List.mem_range'_1.mpr ⟨by omega, by omega⟩
          have hni := List.find?_eq_none.mp hup i hmem
          simpa using hni
  · have hne : isNullAt q e = false := by
      rcases Nat.lt_or_ge e size with hlt | hge
      · exact h e he1 hlt
      · have hlen : q.length ≤ e := by omega
        unfold isNullAt
        rw [List.get?_eq_none.mpr hlen]
        rfl
    have hup : scan_up q size e = none := by
      unfold scan_up
      rw [List.find?_eq_none]
      intro x hx
      have hb := List.mem_range'_1.mp hx
      simp [h x (by omega) (by omega)]
    have hdn : scan_down q e = none := by
      unfold scan_down
      rw [List.find?_eq_none]
      intro x hx
      have hb := List.mem_range'_1.mp (List.mem_reverse.mp hx)
      simp [h x (by omega) (by omega)]
    unfold find_closest_core
    rw [if_neg (by simp [hne]), hup]
    exact hdn
  · have hj : j ∈ List.range' (e + 1) (size - (e + 1)) :=
      List.mem_range'_1.mpr ⟨by omega, by omega⟩
    cases hk : scan_up q size e with
    | none =>
      exfalso
      unfold scan_up at hk
      have hni := List.find?_eq_none.mp hk j hj
      simp [hj3] at hni
    | some k =>
      have hk2 := hk
      unfold scan_up at hk2
      have hmem := List.mem_of_find?_eq_some hk2
      have hb := List.mem_range'_1.mp hmem
      refine ⟨k, by omega, by omega, ?_⟩
      unfold find_closest_core
      rw [if_neg (by simp [hne]), hk]

/-- Claim C4 witness: with capacity 2, slot 0 occupied, slot 1 free and
    pre-clamp delay 1, the search returns the (free) clamped target slot. -/
theorem find_closest_core_characterization_witness :
    find_closest_core 2 [some p0, none] (min 1 2) = some (min 1 2) :=
  (find_closest_core_characterization 2 1 [some p0, none] (by decide)
    (by norm_num) (by norm_num)).1 (by decide)
